import Mathlib

/-!
Shallow embedding of the prometheus-mcp-server core
(`src/prometheus_mcp_server/{main,client,auth}.py`) and proofs about its
workspace-record normalization, query routing and response normalization.

Python values that flow through the normalizers are dynamically typed; we
model the shapes that can occur at the relevant boundaries with `PyVal`.
-/

/-- Dynamic (Python/JSON-like) value: `None`, a string, a dict, a list, or a
native `datetime` object carrying what its `isoformat()` method would
return. -/
inductive PyVal : Type where
  | vnone : PyVal
  | str : String → PyVal
  | dict : List (String × PyVal) → PyVal
  | list : List PyVal → PyVal
  | datetime : String → PyVal

/-- `d.get(k)` on a Python dict modelled as an association list: the value at
the first matching key, `none` when the key is absent. -/
def pyLookup (fields : List (String × PyVal)) (key : String) : Option PyVal :=
  (fields.find? (fun p => p.1 == key)).map (fun p => p.2)

mutual

/-- Python `str(v)`. For strings it is the string itself (this is the only
case the error-message paths of the source exercise on well-formed
envelopes); `None` renders as `"None"`; a datetime renders via its ISO text;
container renderings are a simplified `repr`-like form. -/
def pyStr : PyVal → String
  | PyVal.vnone => "None"
  | PyVal.str s => s
  | PyVal.datetime iso => iso
  | PyVal.dict fs => "\x7b" ++ pyStrFields fs ++ "\x7d"
  | PyVal.list xs => "[" ++ pyStrItems xs ++ "]"

/-- Rendering of dict entries for `pyStr`. -/
def pyStrFields : List (String × PyVal) → String
  | [] => ""
  | (k, v) :: rest => k ++ ": " ++ pyStr v ++ (if rest.isEmpty then "" else ", ") ++ pyStrFields rest

/-- Rendering of list items for `pyStr`. -/
def pyStrItems : List PyVal → String
  | [] => ""
  | v :: rest => pyStr v ++ (if rest.isEmpty then "" else ", ") ++ pyStrItems rest

end

/-- Python `hasattr(v, "isoformat")`: true exactly for native datetime values
in this model. -/
def hasIsoformat : PyVal → Bool
  | PyVal.datetime _ => true
  | _ => false

/-- Status normalization from `PrometheusClient.list_workspaces` /
`get_workspace` (main.py lines 58-61 and 97-100):
`if isinstance(status, dict): status = status.get("statusCode", "UNKNOWN")`.
A total function: it never fails on any input shape. -/
def normalizeStatus (status : PyVal) : PyVal :=
  match status with
  | PyVal.dict fs => (pyLookup fs "statusCode").getD (PyVal.str "UNKNOWN")
  | v => v

/-- Timestamp normalization from `PrometheusClient.list_workspaces` /
`get_workspace` (main.py lines 64-68 and 103-107):
`if hasattr(created_at, "isoformat"): created_at = created_at.isoformat()
else: created_at = str(created_at)`. -/
def normalizeCreatedAt (v : PyVal) : PyVal :=
  match v with
  | PyVal.datetime iso => PyVal.str iso
  | w => PyVal.str (pyStr w)

/-- The `WorkspaceInfo` pydantic model of main.py: the canonical workspace
record produced by the workspace-record normalizer. -/
structure WorkspaceInfo : Type where
  workspace_id : String
  «alias» : Option String
  arn : String
  status : String
  prometheus_endpoint : Option String
  created_at : String
  tags : List (String × String)
deriving DecidableEq

/-- Python truthiness of an optional string (`if not x`): `None` and the
empty string are falsy, every other string is truthy. -/
def truthyOptStr : Option String → Bool
  | none => false
  | some s => !(s == "")

/-- Python `x or default` for an optional string `x`: the default is taken
both when `x` is `None` and when `x` is the (falsy) empty string. This is
the `step or "15s"` expression of `execute_query` (client.py line 70). -/
def pyOrDefault (x : Option String) (default : String) : String :=
  match x with
  | none => default
  | some s => if s == "" then default else s

/-- Python `s.rstrip('/')`: removes ALL trailing `'/'` characters
(client.py lines 62, 133, 182: `workspace.prometheus_endpoint.rstrip('/')`). -/
def rstripSlashes (s : String) : String :=
  ⟨(s.data.reverse.dropWhile (fun c => c == '/')).reverse⟩

/-- Whether a string ends in a path separator `'/'`. -/
def endsWithSlash (s : String) : Bool :=
  s.data.getLast? == some '/'

/-- Whether a string starts with a path separator `'/'`. -/
def startsWithSlash (s : String) : Bool :=
  s.data.head? == some '/'

/-- A doubled path separator would appear at the junction of `base ++ sub`
exactly when `base` ends with `'/'` and `sub` starts with `'/'`. -/
def doubledJunction (base sub : String) : Bool :=
  endsWithSlash base && startsWithSlash sub

/-- The caller-visible failure raised by `execute_query` / `get_label_values`
/ `get_series` before any signing or HTTP activity: the unprovisioned-
endpoint `ValueError` (client.py lines 56-59). -/
inductive QueryError : Type where
  | noEndpoint : String → QueryError
deriving DecidableEq

/-- The outbound request `execute_query` prepares before signing: the full
sub-API URL and the (ordered) query-parameter set. Signing
(`auth.get_signed_headers`) and the HTTP GET both consume exactly this
value, so a computation that fails before producing a `Route` fails before
any signing step and before any network call. -/
structure Route : Type where
  endpoint : String
  params : List (String × String)
deriving DecidableEq

/-- The pre-network phase of `AuthenticatedPrometheusClient.execute_query`
(client.py lines 52-78), given the already-fetched workspace record: the
unprovisioned-endpoint check, base-URL normalization, and the instant/range
routing decision `if start_time and end_time`. Returns the `Route` that is
then signed and sent, or the error raised before either happens. -/
def executeQueryRoute (workspace : WorkspaceInfo) (query : String)
    (start_time end_time step : Option String) : Except QueryError Route :=
  if truthyOptStr workspace.prometheus_endpoint = false then
    Except.error (QueryError.noEndpoint workspace.workspace_id)
  else
    let base_url := rstripSlashes (workspace.prometheus_endpoint.getD "")
    if truthyOptStr start_time && truthyOptStr end_time then
      Except.ok
        { endpoint := base_url ++ "/api/v1/query_range"
          params := [("query", query), ("start", start_time.getD ""),
                     ("end", end_time.getD ""), ("step", pyOrDefault step "15s")] }
    else
      Except.ok
        { endpoint := base_url ++ "/api/v1/query"
          params := [("query", query)] }

/-- The pre-network phase of `get_label_values` (client.py lines 125-137):
endpoint check, base-URL normalization and sub-API path construction. -/
def getLabelValuesRoute (workspace : WorkspaceInfo) (label_name : String) :
    Except QueryError String :=
  if truthyOptStr workspace.prometheus_endpoint = false then
    Except.error (QueryError.noEndpoint workspace.workspace_id)
  else
    let base_url := rstripSlashes (workspace.prometheus_endpoint.getD "")
    Except.ok (base_url ++ "/api/v1/label/" ++ label_name ++ "/values")

/-- The typed result `execute_query` returns to its caller. -/
structure QueryResult : Type where
  workspace_id : String
  query : String
  status : Option PyVal
  data : Option PyVal
  error : Option PyVal
  warnings : Option PyVal

/-- Response normalization of `execute_query` (client.py lines 92-99): the
returned dictionary is built from the request identity and the four
`result.get(...)` lookups on the upstream JSON envelope, with `data` passed
through without inspecting its internal shape. -/
def buildQueryResult (workspace_id query : String)
    (result : List (String × PyVal)) : QueryResult :=
  { workspace_id := workspace_id
    query := query
    status := pyLookup result "status"
    data := pyLookup result "data"
    error := pyLookup result "error"
    warnings := pyLookup result "warnings" }

/-- Response normalization of `get_label_values` (client.py lines 144-147):
`if result.get("status") == "success": return result.get("data", [])
else: raise ValueError(f"Query failed: ...")`. -/
def getLabelValuesNormalize (result : List (String × PyVal)) :
    Except String PyVal :=
  match pyLookup result "status" with
  | some (PyVal.str s) =>
      if s == "success" then
        Except.ok ((pyLookup result "data").getD (PyVal.list []))
      else
        Except.error ("Query failed: " ++ pyStr ((pyLookup result "error").getD PyVal.vnone))
  | _ =>
      Except.error ("Query failed: " ++ pyStr ((pyLookup result "error").getD PyVal.vnone))

/-- Response normalization of `get_series` (client.py lines 201-204), a
verbatim second copy of the label-values normalization in the source. -/
def getSeriesNormalize (result : List (String × PyVal)) :
    Except String PyVal :=
  match pyLookup result "status" with
  | some (PyVal.str s) =>
      if s == "success" then
        Except.ok ((pyLookup result "data").getD (PyVal.list []))
      else
        Except.error ("Query failed: " ++ pyStr ((pyLookup result "error").getD PyVal.vnone))
  | _ =>
      Except.error ("Query failed: " ++ pyStr ((pyLookup result "error").getD PyVal.vnone))

/-- Whether a normalization outcome is the raised query-failure error. -/
def isQueryFailure : Except String PyVal → Bool
  | Except.error _ => true
  | Except.ok _ => false

/-- Endpoint-resolver normalization as the specification words it: strip a
SINGLE trailing path separator. Stated from the spec, to be compared with
the source's `rstrip('/')` (which `rstripSlashes` embeds). -/
def stripSingleTrailingSlash (s : String) : String :=
  if endsWithSlash s then ⟨s.data.dropLast⟩ else s

/-- A provisioned workspace record, used as concrete input for witnesses. -/
def wsActive : WorkspaceInfo :=
  { workspace_id := "ws-1"
    «alias» := some "test-workspace"
    arn := "arn:aws:aps:us-east-1:123456789012:workspace/ws-1"
    status := "ACTIVE"
    prometheus_endpoint := some "https://ep.example.com/workspaces/ws-1/"
    created_at := "2024-01-01T00:00:00+00:00"
    tags := [] }

/-- A workspace record whose query endpoint is not yet provisioned. -/
def wsNoEndpoint : WorkspaceInfo :=
  { workspace_id := "ws-2"
    «alias» := none
    arn := "arn:aws:aps:us-east-1:123456789012:workspace/ws-2"
    status := "CREATING"
    prometheus_endpoint := none
    created_at := "2024-01-01T00:00:00+00:00"
    tags := [] }

/-! ### Helper lemmas -/

/-- The head surviving a `dropWhile` does not satisfy the dropped predicate. -/
lemma head?_dropWhile_false (p : Char → Bool) (l : List Char) (a : Char)
    (h : (l.dropWhile p).head? = some a) : p a = false := by
  induction l with
  | nil => simp [List.dropWhile] at h
  | cons x xs ih =>
    by_cases hx : p x = true
    · rw [List.dropWhile_cons_of_pos hx] at h
      exact ih h
    · rw [List.dropWhile_cons_of_neg hx] at h
      simp only [List.head?_cons, Option.some.injEq] at h
      subst h
      exact Bool.eq_false_iff.mpr hx

/-- Python's `rstrip('/')` leaves no trailing separator behind. -/
lemma endsWithSlash_rstripSlashes (s : String) :
    endsWithSlash (rstripSlashes s) = false := by
  show ((s.data.reverse.dropWhile (fun c => c == '/')).reverse.getLast? == some '/') = false
  rw [List.getLast?_reverse]
  cases h : (s.data.reverse.dropWhile (fun c => c == '/')).head? with
  | none => rfl
  | some a =>
    have ha := head?_dropWhile_false _ _ _ h
    show (some a == some '/') = false
    simpa using ha

/-- The two copies of the envelope check in `get_label_values` and
`get_series` are the same function. -/
lemma getSeriesNormalize_eq (env : List (String × PyVal)) :
    getSeriesNormalize env = getLabelValuesNormalize env := rfl

/-- Characterization of the `get_label_values` failure branch: the
`ValueError` is raised exactly when the envelope status is not the string
`"success"`. -/
lemma isQueryFailure_getLabelValuesNormalize (env : List (String × PyVal)) :
    isQueryFailure (getLabelValuesNormalize env) = true ↔
      pyLookup env "status" ≠ some (PyVal.str "success") := by
  unfold getLabelValuesNormalize
  cases h : pyLookup env "status" with
  | none => simp [isQueryFailure]
  | some v =>
    cases v with
    | str s =>
      by_cases hs : s = "success"
      · subst hs
        simp [isQueryFailure]
      · simp [isQueryFailure, hs]
    | vnone => simp [isQueryFailure]
    | dict fs => simp [isQueryFailure]
    | list xs => simp [isQueryFailure]
    | datetime d => simp [isQueryFailure]

/-! ### Claim theorems -/

/-- C2: status normalization is a three-case total function: a plain-string
status passes through unchanged; a compound (dict) status with a
`statusCode` field normalizes to that field's value; a compound status
lacking `statusCode` normalizes to the literal string `"UNKNOWN"`.
`normalizeStatus` is a total Lean function, so normalization never fails on
either variant. -/
theorem c2_status_normalization (s : String) (fs : List (String × PyVal)) :
    normalizeStatus (PyVal.str s) = PyVal.str s
    ∧ (∀ v, pyLookup fs "statusCode" = some v →
        normalizeStatus (PyVal.dict fs) = v)
    ∧ (pyLookup fs "statusCode" = none →
        normalizeStatus (PyVal.dict fs) = PyVal.str "UNKNOWN") := by
  refine ⟨rfl, ?_, ?_⟩
  · intro v hv
    simp [normalizeStatus, hv]
  · intro hnone
    simp [normalizeStatus, hnone]

/-- C2 witness: concrete evaluations of the three cases. -/
theorem c2_status_normalization_witness :
    normalizeStatus (PyVal.dict [("statusCode", PyVal.str "ACTIVE")]) =
      PyVal.str "ACTIVE"
    ∧ normalizeStatus (PyVal.dict [("statusReason", PyVal.str "in progress")]) =
      PyVal.str "UNKNOWN" :=
  ⟨(c2_status_normalization "ACTIVE" [("statusCode", PyVal.str "ACTIVE")]).2.1
      (PyVal.str "ACTIVE") rfl,
   (c2_status_normalization "ACTIVE" [("statusReason", PyVal.str "in progress")]).2.2
      rfl⟩

/-- C5: `execute_query` builds its `QueryResult` by carrying the upstream
envelope's `status`, `data`, `error` and `warnings` fields through verbatim
(each result field is exactly the corresponding envelope lookup, with
`data` passed through untransformed and uninspected), and records the
request's `workspace_id` and `query`. -/
theorem c5_query_result_passthrough (wid q : String)
    (env : List (String × PyVal)) :
    (buildQueryResult wid q env).workspace_id = wid
    ∧ (buildQueryResult wid q env).query = q
    ∧ (buildQueryResult wid q env).status = pyLookup env "status"
    ∧ (buildQueryResult wid q env).data = pyLookup env "data"
    ∧ (buildQueryResult wid q env).error = pyLookup env "error"
    ∧ (buildQueryResult wid q env).warnings = pyLookup env "warnings" :=
  ⟨rfl, rfl, rfl, rfl, rfl, rfl⟩

/-- C7: when the workspace record lacks a query endpoint, `execute_query`
fails with the unprovisioned-endpoint error. In this embedding the
`Except.error` outcome is produced instead of a `Route`, and signing and
the outbound HTTP GET both consume the `Route`, so the failure occurs
before any signing step and before any network call. -/
theorem c7_unprovisioned_before_network (ws : WorkspaceInfo) (q : String)
    (st en stp : Option String) (h : ws.prometheus_endpoint = none) :
    executeQueryRoute ws q st en stp =
      Except.error (QueryError.noEndpoint ws.workspace_id) := by
  simp [executeQueryRoute, h, truthyOptStr]

/-- C7 witness: the unprovisioned workspace is rejected concretely. -/
theorem c7_unprovisioned_before_network_witness :
    executeQueryRoute wsNoEndpoint "up" none none none =
      Except.error (QueryError.noEndpoint "ws-2") :=
  c7_unprovisioned_before_network wsNoEndpoint "up" none none none rfl

/-- C8: timestamp normalization always yields a string value: every input
shape maps to a `PyVal.str`; a native datetime maps to its
timestamp-to-text (`isoformat`) result; every non-datetime value maps to
its generic string coercion (`str`). -/
theorem c8_created_at_always_string (v : PyVal) :
    (∃ s, normalizeCreatedAt v = PyVal.str s)
    ∧ (∀ iso, normalizeCreatedAt (PyVal.datetime iso) = PyVal.str iso)
    ∧ (hasIsoformat v = false → normalizeCreatedAt v = PyVal.str (pyStr v)) := by
  refine ⟨?_, fun iso => rfl, ?_⟩
  · cases v <;> exact ⟨_, rfl⟩
  · cases v <;> intro h
    case datetime iso => simp [hasIsoformat] at h
    all_goals rfl

/-- C8 witness: a native timestamp converts via its ISO text, a string
timestamp passes through the generic coercion unchanged. -/
theorem c8_created_at_always_string_witness :
    normalizeCreatedAt (PyVal.datetime "2024-01-01T00:00:00+00:00") =
      PyVal.str "2024-01-01T00:00:00+00:00"
    ∧ normalizeCreatedAt (PyVal.str "2024-01-01T00:00:00Z") =
      PyVal.str "2024-01-01T00:00:00Z" :=
  ⟨(c8_created_at_always_string
      (PyVal.datetime "2024-01-01T00:00:00+00:00")).2.1 "2024-01-01T00:00:00+00:00",
   (c8_created_at_always_string (PyVal.str "2024-01-01T00:00:00Z")).2.2 rfl⟩

/-- C9: on a success envelope with no `data` key at all, both
`get_label_values` and `get_series` return the empty list (the
`result.get("data", [])` default), not a failure and not `None`. -/
theorem c9_missing_data_empty_list (env : List (String × PyVal))
    (hstat : pyLookup env "status" = some (PyVal.str "success"))
    (hdata : pyLookup env "data" = none) :
    getLabelValuesNormalize env = Except.ok (PyVal.list [])
    ∧ getSeriesNormalize env = Except.ok (PyVal.list []) := by
  constructor <;>
    simp [getLabelValuesNormalize, getSeriesNormalize, hstat, hdata]

/-- C9 witness: a success envelope lacking `data` concretely yields `[]`
from both operations. -/
theorem c9_missing_data_empty_list_witness :
    getLabelValuesNormalize [("status", PyVal.str "success")] =
      Except.ok (PyVal.list [])
    ∧ getSeriesNormalize [("status", PyVal.str "success")] =
      Except.ok (PyVal.list []) :=
  c9_missing_data_empty_list [("status", PyVal.str "success")] rfl rfl

/-- Appending to a string that starts with a path separator preserves a
leading path separator. -/
lemma startsWithSlash_append (a b : String) (h : startsWithSlash a = true) :
    startsWithSlash (a ++ b) = true := by
  unfold startsWithSlash at *
  rw [String.data_append]
  cases ha : a.data with
  | nil => simp [ha] at h
  | cons c cs => rw [ha] at h; simpa using h

/-- C1 (amended): query routing over `start`/`end` is total but never
rejecting. When both bounds are truthy (present and non-empty) the range
shape `/api/v1/query_range` is selected; in every other case — neither
present, exactly one present, or a bound present but empty — the instant
shape `/api/v1/query` is selected with only the `query` parameter, and no
caller error is raised: a lone `start` or `end` is silently ignored. -/
theorem c1_amended_routing (ws : WorkspaceInfo) (q : String)
    (st en stp : Option String)
    (hep : truthyOptStr ws.prometheus_endpoint = true) :
    ((truthyOptStr st && truthyOptStr en) = true →
      executeQueryRoute ws q st en stp =
        Except.ok ⟨rstripSlashes (ws.prometheus_endpoint.getD "") ++ "/api/v1/query_range",
          [("query", q), ("start", st.getD ""), ("end", en.getD ""),
           ("step", pyOrDefault stp "15s")]⟩)
    ∧ ((truthyOptStr st && truthyOptStr en) = false →
      executeQueryRoute ws q st en stp =
        Except.ok ⟨rstripSlashes (ws.prometheus_endpoint.getD "") ++ "/api/v1/query",
          [("query", q)]⟩) := by
  constructor <;> intro hc <;> simp [executeQueryRoute, hep, hc]

/-- C1 (counterexample): on a provisioned workspace, a request with `start`
present and `end` absent is NOT rejected before the network call: it
produces an instant-shape `Route`, contradicting the claimed caller error.
Likewise, a request with both bounds present but `start` empty is routed
to the instant shape, not the range shape required for "both present". -/
theorem c1_counterexample :
    executeQueryRoute wsActive "up" (some "2024-01-01T00:00:00Z") none none =
      Except.ok ⟨"https://ep.example.com/workspaces/ws-1/api/v1/query", [("query", "up")]⟩
    ∧ executeQueryRoute wsActive "up" (some "") (some "2024-01-02T00:00:00Z") none =
      Except.ok ⟨"https://ep.example.com/workspaces/ws-1/api/v1/query", [("query", "up")]⟩ :=
  ⟨rfl, rfl⟩

/-- C1 witness: the amended routing theorem applied concretely to a request
carrying only `start`, which routes to the instant shape. -/
theorem c1_amended_routing_witness :
    executeQueryRoute wsActive "up" (some "2024-01-01T00:00:00Z") none none =
      Except.ok ⟨"https://ep.example.com/workspaces/ws-1/api/v1/query", [("query", "up")]⟩ :=
  (c1_amended_routing wsActive "up" (some "2024-01-01T00:00:00Z") none none rfl).2 rfl

/-- C3 (counterexample): the source normalizes the base URL with
`rstrip('/')`, which removes ALL trailing path separators, not a single
one: on a base URL ending in two separators the code and the claim's
single-strip description disagree. -/
theorem c3_counterexample :
    rstripSlashes "https://ep.example.com//" = "https://ep.example.com"
    ∧ stripSingleTrailingSlash "https://ep.example.com//" = "https://ep.example.com/"
    ∧ rstripSlashes "https://ep.example.com//" ≠
        stripSingleTrailingSlash "https://ep.example.com//" :=
  ⟨by decide, by decide, by decide⟩

/-- C3 (amended): the endpoint resolver strips ALL trailing path separators
from the base URL, so every request URL built by `execute_query` or
`get_label_values` decomposes as the stripped base followed by a sub-API
path, and no doubled separator ever appears at their junction. -/
theorem c3_amended_no_doubled_junction (ws : WorkspaceInfo)
    (q label_name : String) (st en stp : Option String) :
    (∀ r, executeQueryRoute ws q st en stp = Except.ok r →
      ∃ sub, r.endpoint = rstripSlashes (ws.prometheus_endpoint.getD "") ++ sub
        ∧ startsWithSlash sub = true
        ∧ doubledJunction (rstripSlashes (ws.prometheus_endpoint.getD "")) sub = false)
    ∧ (∀ u, getLabelValuesRoute ws label_name = Except.ok u →
      ∃ sub, u = rstripSlashes (ws.prometheus_endpoint.getD "") ++ sub
        ∧ startsWithSlash sub = true
        ∧ doubledJunction (rstripSlashes (ws.prometheus_endpoint.getD "")) sub = false) := by
  have hdj : ∀ sub,
      doubledJunction (rstripSlashes (ws.prometheus_endpoint.getD "")) sub = false := by
    intro sub
    simp [doubledJunction, endsWithSlash_rstripSlashes]
  constructor
  · intro r h
    unfold executeQueryRoute at h
    split at h
    · exact Except.noConfusion h
    · split at h
      · injection h with h'
        subst h'
        exact ⟨"/api/v1/query_range", rfl, rfl, hdj _⟩
      · injection h with h'
        subst h'
        exact ⟨"/api/v1/query", rfl, rfl, hdj _⟩
  · intro u h
    unfold getLabelValuesRoute at h
    split at h
    · exact Except.noConfusion h
    · injection h with h'
      subst h'
      refine ⟨"/api/v1/label/" ++ label_name ++ "/values", ?_, ?_, hdj _⟩
      · simp [String.append_assoc]
      · exact startsWithSlash_append _ "/values"
          (startsWithSlash_append "/api/v1/label/" label_name rfl)

/-- C3 witness: the amended theorem applied to a concrete instant query on
the provisioned workspace. -/
theorem c3_amended_no_doubled_junction_witness :
    ∃ sub, ("https://ep.example.com/workspaces/ws-1/api/v1/query" : String) =
        rstripSlashes (wsActive.prometheus_endpoint.getD "") ++ sub
      ∧ startsWithSlash sub = true
      ∧ doubledJunction (rstripSlashes (wsActive.prometheus_endpoint.getD "")) sub = false :=
  (c3_amended_no_doubled_junction wsActive "up" "job" none none none).1
    ⟨"https://ep.example.com/workspaces/ws-1/api/v1/query", [("query", "up")]⟩ rfl

/-- C4: for a range request (both bounds present as non-empty RFC3339
strings), the router emits the `/api/v1/query_range` sub-API with the
parameter set exactly `query, start, end, step`, and when the caller omits
`step` the emitted `step` parameter is the literal `"15s"`. -/
theorem c4_range_params (ws : WorkspaceInfo) (q s t : String)
    (stp : Option String)
    (hep : truthyOptStr ws.prometheus_endpoint = true)
    (hs : s ≠ "") (ht : t ≠ "") :
    executeQueryRoute ws q (some s) (some t) stp =
      Except.ok ⟨rstripSlashes (ws.prometheus_endpoint.getD "") ++ "/api/v1/query_range",
        [("query", q), ("start", s), ("end", t), ("step", pyOrDefault stp "15s")]⟩
    ∧ (stp = none →
      executeQueryRoute ws q (some s) (some t) stp =
        Except.ok ⟨rstripSlashes (ws.prometheus_endpoint.getD "") ++ "/api/v1/query_range",
          [("query", q), ("start", s), ("end", t), ("step", "15s")]⟩) := by
  have hst : truthyOptStr (some s) = true := by
    simp [truthyOptStr, beq_false_of_ne hs]
  have htt : truthyOptStr (some t) = true := by
    simp [truthyOptStr, beq_false_of_ne ht]
  constructor
  · simp [executeQueryRoute, hep, hst, htt]
  · intro hstep
    subst hstep
    simp [executeQueryRoute, hep, hst, htt, pyOrDefault]

/-- C4 witness: a concrete range request with `step` omitted emits the
range sub-API with `step` defaulted to `"15s"`. -/
theorem c4_range_params_witness :
    executeQueryRoute wsActive "up" (some "2024-01-01T00:00:00Z")
        (some "2024-01-02T00:00:00Z") none =
      Except.ok ⟨"https://ep.example.com/workspaces/ws-1/api/v1/query_range",
        [("query", "up"), ("start", "2024-01-01T00:00:00Z"),
         ("end", "2024-01-02T00:00:00Z"), ("step", "15s")]⟩ :=
  (c4_range_params wsActive "up" "2024-01-01T00:00:00Z" "2024-01-02T00:00:00Z" none
    rfl (by decide) (by decide)).2 rfl

/-- C6: for both `get_label_values` and `get_series`, the query-failure
error is raised if and only if the envelope's `status` is not the string
`"success"`; a failure carries the upstream `error` string in its message,
and a success envelope with a `data` field returns that field as-is. -/
theorem c6_label_series_failure_iff (env : List (String × PyVal)) :
    (isQueryFailure (getLabelValuesNormalize env) = true ↔
      pyLookup env "status" ≠ some (PyVal.str "success"))
    ∧ (isQueryFailure (getSeriesNormalize env) = true ↔
      pyLookup env "status" ≠ some (PyVal.str "success"))
    ∧ (∀ msg, pyLookup env "status" ≠ some (PyVal.str "success") →
        pyLookup env "error" = some (PyVal.str msg) →
        getLabelValuesNormalize env = Except.error ("Query failed: " ++ msg)
        ∧ getSeriesNormalize env = Except.error ("Query failed: " ++ msg))
    ∧ (∀ d, pyLookup env "status" = some (PyVal.str "success") →
        pyLookup env "data" = some d →
        getLabelValuesNormalize env = Except.ok d
        ∧ getSeriesNormalize env = Except.ok d) := by
  refine ⟨isQueryFailure_getLabelValuesNormalize env, ?_, ?_, ?_⟩
  · rw [getSeriesNormalize_eq]
    exact isQueryFailure_getLabelValuesNormalize env
  · intro msg hne herr
    have hlab : getLabelValuesNormalize env = Except.error ("Query failed: " ++ msg) := by
      unfold getLabelValuesNormalize
      cases h : pyLookup env "status" with
      | none => simp [herr, pyStr]
      | some v =>
        cases v with
        | str s =>
          by_cases hs : s = "success"
          · subst hs; exact absurd h hne
          · simp [beq_false_of_ne hs, herr, pyStr]
        | vnone => simp [herr, pyStr]
        | dict fs => simp [herr, pyStr]
        | list xs => simp [herr, pyStr]
        | datetime d => simp [herr, pyStr]
    exact ⟨hlab, (getSeriesNormalize_eq env).trans hlab⟩
  · intro d hst hd
    have hlab : getLabelValuesNormalize env = Except.ok d := by
      unfold getLabelValuesNormalize
      rw [hst]
      simp [hd]
    exact ⟨hlab, (getSeriesNormalize_eq env).trans hlab⟩

/-- C6 witness: a concrete success envelope returns its `data` as-is from
both operations, and a concrete error envelope raises the query failure
carrying the upstream message. -/
theorem c6_label_series_failure_iff_witness :
    (getLabelValuesNormalize
        [("status", PyVal.str "success"), ("data", PyVal.list [PyVal.str "up"])] =
      Except.ok (PyVal.list [PyVal.str "up"])
      ∧ getSeriesNormalize
        [("status", PyVal.str "success"), ("data", PyVal.list [PyVal.str "up"])] =
      Except.ok (PyVal.list [PyVal.str "up"]))
    ∧ (getLabelValuesNormalize
        [("status", PyVal.str "error"), ("error", PyVal.str "boom")] =
      Except.error ("Query failed: " ++ "boom")
      ∧ getSeriesNormalize
        [("status", PyVal.str "error"), ("error", PyVal.str "boom")] =
      Except.error ("Query failed: " ++ "boom")) :=
  ⟨(c6_label_series_failure_iff
      [("status", PyVal.str "success"), ("data", PyVal.list [PyVal.str "up"])]).2.2.2
      (PyVal.list [PyVal.str "up"]) rfl rfl,
   (c6_label_series_failure_iff
      [("status", PyVal.str "error"), ("error", PyVal.str "boom")]).2.2.1
      "boom"
      (by intro hcon; injection hcon with h1; injection h1 with h2;
          exact absurd h2 (by decide))
      rfl⟩

/-- C10: on a range request, a `step` argument supplied as the empty string
is treated identically to an omitted `step` — the emitted `step` parameter
is `"15s"` — because the source's `step or "15s"` defaults on any falsy
value, not only on absence. -/
theorem c10_empty_step_default (ws : WorkspaceInfo) (q s t : String)
    (hep : truthyOptStr ws.prometheus_endpoint = true)
    (hs : s ≠ "") (ht : t ≠ "") :
    executeQueryRoute ws q (some s) (some t) (some "") =
      executeQueryRoute ws q (some s) (some t) none
    ∧ executeQueryRoute ws q (some s) (some t) (some "") =
      Except.ok ⟨rstripSlashes (ws.prometheus_endpoint.getD "") ++ "/api/v1/query_range",
        [("query", q), ("start", s), ("end", t), ("step", "15s")]⟩ := by
  have hst : truthyOptStr (some s) = true := by
    simp [truthyOptStr, beq_false_of_ne hs]
  have htt : truthyOptStr (some t) = true := by
    simp [truthyOptStr, beq_false_of_ne ht]
  constructor <;> simp [executeQueryRoute, hep, hst, htt, pyOrDefault]

/-- C10 witness: a concrete range request with empty-string `step` emits
`step = "15s"`, identical to omitting `step`. -/
theorem c10_empty_step_default_witness :
    executeQueryRoute wsActive "up" (some "2024-01-01T00:00:00Z")
        (some "2024-01-02T00:00:00Z") (some "") =
      executeQueryRoute wsActive "up" (some "2024-01-01T00:00:00Z")
        (some "2024-01-02T00:00:00Z") none :=
  (c10_empty_step_default wsActive "up" "2024-01-01T00:00:00Z" "2024-01-02T00:00:00Z"
    rfl (by decide) (by decide)).1
